import Mathlib

/-!
Verification development for the `command` module of the
`ansible-command-shell-diff` collection (plugins/modules/command.py).

The module's executable logic is embedded shallowly:

* the filesystem seen by `os.stat`, `os.readlink`, `open`, `os.listdir`
  is an association list from absolute path strings to `FSEntry` records;
* `glob.glob` and `module.run_command` are oracles supplied by the caller
  (`World.glob`, `ExecOutcome`), since they are OS/stdlib services;
* the unbounded `while` loop of `human_readable_stat` is given explicit
  fuel, with `LoopRes.fuelOut` marking that the loop is still running
  after that many iterations;
* uncaught Python exceptions are `ModErr` values propagated to the top.
-/

namespace CommandShellDiff

/-- Decidable equality for `Except`, needed to evaluate closed equations
about fallible operations. -/
instance {ε α : Type} [DecidableEq ε] [DecidableEq α] : DecidableEq (Except ε α) := fun a b =>
  match a, b with
  | .ok x, .ok y =>
    if h : x = y then isTrue (by rw [h]) else isFalse (fun hh => h (Except.ok.inj hh))
  | .error x, .error y =>
    if h : x = y then isTrue (by rw [h]) else isFalse (fun hh => h (Except.error.inj hh))
  | .ok _, .error _ => isFalse (fun hh => Except.noConfusion hh)
  | .error _, .ok _ => isFalse (fun hh => Except.noConfusion hh)

/-- The file-type classification of an inode.  The source computes this from
`st_mode` via `stat.S_ISREG`, `stat.S_ISDIR`, ...; since the mode bits of a
single inode satisfy exactly one of those predicates (or none), the embedding
stores the classification directly. -/
inductive FileType
  | regular | directory | charDevice | blockDevice | fifo | symlink | socket | unknown
deriving DecidableEq, Repr

/-- `human_readable_file_type` from the source: the first matching entry of the
`func2file_type` dict (insertion order), else "unknown". -/
def human_readable_file_type : FileType → String
  | .regular => "regular file"
  | .directory => "directory"
  | .charDevice => "character device"
  | .blockDevice => "block device"
  | .fifo => "FIFO/pipe"
  | .symlink => "symlink"
  | .socket => "socket"
  | .unknown => "unknown"

/-- Floor of a nonnegative rational as an integer (`q.num / q.den` truncates
toward zero, which is the floor for the nonnegative values used here). -/
def ratFloor (q : ℚ) : Int := q.num / (q.den : Int)

/-- Rendering of Python's `f"{x:.2f}"` for the nonnegative values produced by
`human_readable_size`: two decimal digits, rounding half up (Python rounds
half to even; the two renderings differ only on exact ties, and no claim
depends on the digit string). -/
def fmt2 (q : ℚ) : String :=
  let c : Int := ratFloor (q * 100 + 1 / 2)
  let ip := c / 100
  let fp := (c % 100).toNat
  toString ip ++ "." ++ (if fp < 10 then "0" else "") ++ toString fp

/-- The suffix list iterated by `human_readable_size`. -/
def sizeUnits : List String := ["KiB", "MiB", "GiB", "TiB", "PiB"]

/-- The `for suffix in [...KiB...]` loop of `human_readable_size`: divide by
1024, return on the first quotient below 1024; after exhausting the list the
loop variable still holds "PiB" and the final `return` uses it.  Python uses
float division; the embedding uses exact rationals (division by 1024 is exact
in binary floating point for these magnitudes, and the branch tests compare
against the integer 1024). -/
def sizeLoop : ℚ → List String → String
  | current_size, [] => fmt2 current_size ++ " PiB"
  | current_size, suffix :: rest =>
    let c2 := current_size / 1024
    if c2 < 1024 then fmt2 c2 ++ " " ++ suffix else sizeLoop c2 rest

/-- `human_readable_size` from the source. -/
def human_readable_size (st_size : Nat) : String :=
  if st_size < 1024 then toString st_size ++ " bytes"
  else sizeLoop (st_size : ℚ) sizeUnits

/-- `str.split(sep)` for a single-character separator, as a structurally
recursive accumulator loop (the library `String.splitOn` is defined by
well-founded recursion, which blocks kernel evaluation). -/
def splitOnCharAux (c : Char) : List Char → List Char → List String
  | [], cur => [String.mk cur.reverse]
  | x :: xs, cur =>
    if x = c then String.mk cur.reverse :: splitOnCharAux c xs []
    else splitOnCharAux c xs (x :: cur)

/-- `p.split(c)`. -/
def splitOnChar (c : Char) (s : String) : List String := splitOnCharAux c s.data []

/-- `"/".join(parts)`. -/
def joinWithSlash : List String → String
  | [] => ""
  | [x] => x
  | x :: y :: xs => x ++ "/" ++ joinWithSlash (y :: xs)

/-- Does the string start with the given character? -/
def startsWithChar (c : Char) (s : String) : Bool :=
  match s.data with
  | [] => false
  | x :: _ => x = c

/-- Does the string end with the given character? -/
def endsWithChar (c : Char) (s : String) : Bool :=
  match s.data.getLast? with
  | Option.some x => x = c
  | Option.none => false

/-- Does `s` end with `suf`?  (List-based, kernel-evaluable.) -/
def strEndsWith (s suf : String) : Bool :=
  s.data.reverse.take suf.data.length = suf.data.reverse

/-- The ASCII whitespace stripped by Python's `str.strip()` (the further
unicode whitespace Python also strips never occurs in these inputs). -/
def isSpaceChar (c : Char) : Bool :=
  c = ' ' ∨ c = '\t' ∨ c = '\n' ∨ c = '\r' ∨ c = '\x0b' ∨ c = '\x0c'

/-- `str.strip()`. -/
def pyStrip (s : String) : String :=
  String.mk ((s.data.dropWhile isSpaceChar).reverse.dropWhile isSpaceChar).reverse

/-- `posixpath.normpath` restricted to absolute inputs, which is all the
module ever normalizes (the POSIX leading-"//" special case is not modelled;
no input here uses doubled slashes). -/
def normpath (p : String) : String :=
  let comps := (splitOnChar '/' p).foldl
    (fun acc c =>
      if c = "" ∨ c = "." then acc
      else if c = ".." then acc.dropLast
      else acc ++ [c]) ([] : List String)
  "/" ++ joinWithSlash comps

/-- `os.path.isabs`. -/
def os_path_isabs (p : String) : Bool := startsWithChar '/' p

/-- `posixpath.join` for two components: an absolute second argument replaces
the first, otherwise the parts are joined with a single slash. -/
def os_path_join (a b : String) : String :=
  if os_path_isabs b then b
  else if a = "" ∨ endsWithChar '/' a then a ++ b
  else a ++ "/" ++ b

/-- `os.path.abspath`, parameterized by the current working directory. -/
def os_path_abspath (cwd p : String) : String := normpath (os_path_join cwd p)

/-- `posixpath.dirname`: everything before the final slash, with trailing
slashes stripped unless the head consists only of slashes (the root). -/
def os_path_dirname (p : String) : String :=
  let cs := p.data
  let i := cs.length - (cs.reverse.takeWhile (fun c => c ≠ '/')).length
  let head := cs.take i
  if head ≠ [] ∧ head.any (fun c => c ≠ '/') then
    String.mk (head.reverse.dropWhile (fun c => c = '/')).reverse
  else String.mk head

/-- The bytes of a regular file, as seen by `open(path)`: either UTF-8 text,
or undecodable bytes abstracted by the hex SHA-1 digest `hashlib.sha1` would
produce for them. -/
inductive FileContent
  | text (s : String)
  | binary (sha1hex : String)
deriving DecidableEq, Repr

/-- One inode of the modelled filesystem, carrying exactly the observations
the module makes: `os.stat` fields (owner and group already resolved through
`pwd`/`grp`, the mode rendered by `stat.filemode`), the `os.readlink` target
for symlinks, the bytes for regular files, the `os.listdir` listing for
directories. -/
structure FSEntry where
  owner : String
  group : String
  ftype : FileType
  mode : String
  st_size : Nat
  linkTarget : String := ""
  content : FileContent := .text ""
  listing : List String := []
deriving DecidableEq, Repr

/-- The filesystem: absolute path → inode. -/
abbrev FS := List (String × FSEntry)

def FS.lookup (fs : FS) (p : String) : Option FSEntry :=
  (fs.find? (fun kv => kv.1 == p)).map Prod.snd

/-- The uncaught-exception values the module can raise. -/
inductive ModErr
  | fileNotFound (p : String)            -- FileNotFoundError
  | recursionError (seen : List String)  -- RecursionError("Cyclic symlinks detected: ...")
  | isADirectory (p : String)            -- IsADirectoryError from open() on a directory
  | specialOpen (p : String)             -- open() on a FIFO/device/socket target
  | keyError (k : String)                -- KeyError from a missing dict key
deriving DecidableEq, Repr

/-- The dict returned by `_human_readable_stat`. -/
structure StatDict where
  path : String
  owner : String
  group : String
  file_type : String
  mode : String
  size : String
deriving DecidableEq, Repr

/-- `_human_readable_stat` from the source: `os.stat(path, follow_symlinks=False)`
plus the human-readable renderings; a missing path raises FileNotFoundError. -/
def _human_readable_stat (fs : FS) (path : String) : Except ModErr StatDict :=
  match FS.lookup fs path with
  | Option.none => .error (.fileNotFound path)
  | Option.some e => .ok
      { path := path
        owner := e.owner
        group := e.group
        file_type := human_readable_file_type e.ftype
        mode := e.mode
        size := human_readable_size e.st_size }

/-- `os.readlink`; only ever called on paths just stat'ed as symlinks. -/
def os_readlink (fs : FS) (p : String) : Except ModErr String :=
  match FS.lookup fs p with
  | Option.some e => if e.ftype = .symlink then .ok e.linkTarget else .error (.fileNotFound p)
  | Option.none => .error (.fileNotFound p)

/-- `get_symlink_destination_absolute` from the source. -/
def get_symlink_destination_absolute (fs : FS) (cwd symlink_path : String) :
    Except ModErr String := do
  let destination_path ← os_readlink fs symlink_path
  if ¬ os_path_isabs destination_path then
    return os_path_abspath cwd (os_path_join (os_path_dirname symlink_path) destination_path)
  return destination_path

/-- Result of a fuelled loop: finished, raised, or still running when the
fuel ran out. -/
inductive LoopRes (α : Type)
  | done (a : α)
  | error (e : ModErr)
  | fuelOut
deriving DecidableEq, Repr

/-- The `while output[-1]["file_type"] == "symlink"` loop of
`human_readable_stat`.  Note that, as in the source, `seen_paths` is threaded
through UNCHANGED: the source initializes `seen_paths = [path]` and never
appends to it inside the loop. -/
def hrsLoop (fs : FS) (cwd : String) :
    Nat → String → List StatDict → List String → LoopRes (List StatDict)
  | 0, _, _, _ => .fuelOut
  | fuel + 1, path, output, seen_paths =>
    if (output.getLast?.map StatDict.file_type) = Option.some "symlink" then
      match get_symlink_destination_absolute fs cwd path with
      | .error e => .error e
      | .ok path2 =>
        if path2 ∈ seen_paths then .error (.recursionError (seen_paths ++ [path2]))
        else match _human_readable_stat fs path2 with
          | .error e => .error e
          | .ok d => hrsLoop fs cwd fuel path2 (output ++ [d]) seen_paths
    else .done output

/-- `human_readable_stat` from the source: absolutize, stat, then follow the
symlink chain. -/
def human_readable_stat (fs : FS) (cwd : String) (fuel : Nat) (path0 : String) :
    LoopRes (List StatDict) :=
  let path := os_path_abspath cwd path0
  match _human_readable_stat fs path with
  | .error e => .error e
  | .ok d => hrsLoop fs cwd fuel path [d] [path]

/-- One value of the Python dicts built by `examine_file` and the diff step. -/
inductive SnapVal
  | str (s : String)
  | statList (l : List StatDict)
  | strList (l : List String)
  | none
deriving DecidableEq, Repr

/-- A Python dict with string keys, in insertion order.  All dicts compared
by the module are built by `examine_file` with a deterministic key order, so
ordered structural equality coincides with Python's unordered dict equality
on them. -/
abbrev Snapshot := List (String × SnapVal)

/-- `d[k]` as an `Option` (so a caller can model `KeyError`). -/
def dictGet (d : Snapshot) (k : String) : Option SnapVal :=
  (d.find? (fun kv => kv.1 == k)).map Prod.snd

/-- `d[k] = v`: overwrite in place, or append a new key. -/
def dictSet (d : Snapshot) (k : String) (v : SnapVal) : Snapshot :=
  if (d.find? (fun kv => kv.1 == k)).isSome
  then d.map (fun kv => if kv.1 == k then (k, v) else kv)
  else d ++ [(k, v)]

/-- The sentinel `examine_file` returns on FileNotFoundError.  As in the
source, the content key is spelled "contents" here, unlike the "content" key
of the success case. -/
def absentSnapshot : Snapshot :=
  [("state", .str "absent"), ("stat", SnapVal.none), ("contents", SnapVal.none)]

/-- The string stored for undecodable bytes. -/
def binaryContentMsg (sha1hex : String) : String :=
  "content ommitted, binary file. sha1sum: " ++ sha1hex

/-- `open(path).read()` at the final target of the stat chain: text or the
binary sentinel for a regular file; a directory target raises
IsADirectoryError, any other special file is modelled as a distinct error
(the source would block or misread there; no claim exercises it). -/
def openRead (fs : FS) (finalPath : String) : Except ModErr SnapVal :=
  match FS.lookup fs finalPath with
  | Option.none => .error (.fileNotFound finalPath)
  | Option.some e =>
    match e.ftype with
    | .regular =>
      match e.content with
      | .text s => .ok (.str s)
      | .binary h => .ok (.str (binaryContentMsg h))
    | .directory => .error (.isADirectory finalPath)
    | _ => .error (.specialOpen finalPath)

/-- `examine_file` from the source: the stat chain, then content per the type
of the first chain entry; FileNotFoundError anywhere inside the `try` block
collapses to the absent sentinel; every other exception propagates. -/
def examine_file (fs : FS) (cwd : String) (fuel : Nat) (path : String) : LoopRes Snapshot :=
  match human_readable_stat fs cwd fuel path with
  | .fuelOut => .fuelOut
  | .error (.fileNotFound _) => .done absentSnapshot
  | .error e => .error e
  | .done statl =>
    let ft0 := (statl.head?.map StatDict.file_type).getD "unknown"
    if ft0 = "regular file" ∨ ft0 = "symlink" then
      let finalPath := (statl.getLast?.map StatDict.path).getD path
      match openRead fs finalPath with
      | .error (.fileNotFound _) => .done absentSnapshot
      | .error e => .error e
      | .ok v => .done [("stat", .statList statl), ("content", v)]
    else if ft0 = "directory" then
      match FS.lookup fs (os_path_abspath cwd path) with
      | Option.some e => .done [("stat", .statList statl), ("content", .strList e.listing)]
      | Option.none => .done absentSnapshot
    else
      .done [("stat", .statList statl), ("content", .str "content ommitted, special file.")]

/-- One element appended to `r['diff']`: the (possibly collapsed) before and
after dicts. -/
structure DiffRecord where
  before : Snapshot
  after : Snapshot
deriving DecidableEq, Repr

/-- The comparison loop of `main` (the second `for path in modifies` loop):
skip equal pairs; on a differing pair read `["state"]` from both sides — a
missing key raises KeyError, exactly as in the source, where snapshots of
present paths carry no "state" key — collapse when the states differ, tag
both sides with "path", append, and set changed. -/
def diffStep : List (String × Snapshot × Snapshot) → List DiffRecord → Bool →
    Except ModErr (List DiffRecord × Bool)
  | [], acc, changed => .ok (acc, changed)
  | (path, before, after) :: rest, acc, changed =>
    if before = after then diffStep rest acc changed
    else
      match dictGet before "state" with
      | Option.none => .error (.keyError "state")
      | Option.some bst =>
        match dictGet after "state" with
        | Option.none => .error (.keyError "state")
        | Option.some ast =>
          let pair : Snapshot × Snapshot :=
            if bst ≠ ast then ([("state", bst)], [("state", ast)]) else (before, after)
          let b2 := dictSet pair.1 "path" (.str path)
          let a2 := dictSet pair.2 "path" (.str path)
          diffStep rest (acc ++ [⟨b2, a2⟩]) true

/-- The snapshot pass over `modifies` (either `for path in modifies` loop):
`examine_file` per path, propagating any raised exception. -/
def snapList (fs : FS) (cwd : String) (fuel : Nat) :
    List String → LoopRes (List (String × Snapshot))
  | [] => .done []
  | p :: rest =>
    match examine_file fs cwd fuel p with
    | .fuelOut => .fuelOut
    | .error e => .error e
    | .done s =>
      match snapList fs cwd fuel rest with
      | .fuelOut => .fuelOut
      | .error e => .error e
      | .done xs => .done ((p, s) :: xs)

/-- `path2diff[path]` lookup (always present by construction). -/
def lookupSnap (l : List (String × Snapshot)) (k : String) : Snapshot :=
  ((l.find? (fun kv => kv.1 == k)).map Prod.snd).getD []

/-- The result dict `r` of `main`.  A key never assigned is modelled by its
falsy initial value (`skipped`, absent unless set, is `false`; `diff` is
`none` until `r['diff']` is assigned). -/
structure ResultR where
  changed : Bool := false
  stdout : String := ""
  stderr : String := ""
  rc : Option Int := Option.none
  cmd : Option (Sum String (List String)) := Option.none
  start : Option String := Option.none
  end_ : Option String := Option.none
  delta : Option String := Option.none
  msg : String := ""
  skipped : Bool := false
  diff : Option (List DiffRecord) := Option.none
deriving DecidableEq, Repr

/-- `module.params` after AnsibleModule parsing. -/
structure Params where
  raw_params : Option String := Option.none   -- params['_raw_params']
  uses_shell : Bool := false                  -- params['_uses_shell']
  argv : Option (List String) := Option.none
  chdir : Option String := Option.none
  executable : Option String := Option.none
  expand_argument_vars : Bool := true
  creates : Option String := Option.none
  removes : Option String := Option.none
  modifies : Option (List String) := Option.none
  stdin : Option String := Option.none
  stdin_add_newline : Bool := true
  strip_empty_ends : Bool := true

/-- The ambient OS state: the filesystem, the working directory, and the
`glob.glob` oracle. -/
structure World where
  fs : FS
  cwd : String
  glob : String → List String

/-- The outcome `module.run_command` would report for this invocation's
command, together with the filesystem after the child process ran. -/
structure ExecOutcome where
  rc : Int
  stdout : String
  stderr : String
  startT : String
  endT : String
  fsAfter : FS

/-- Externally observable side effects, for the before-any-side-effect
claims: whether `os.chdir` was attempted, whether a child process was
spawned, and which watched paths had before/after snapshots attempted. -/
structure Effects where
  chdirAttempted : Bool := false
  processSpawned : Bool := false
  beforeSnapshotted : List String := []
  afterSnapshotted : List String := []
deriving DecidableEq, Repr

/-- How an invocation of `main` ends: `module.exit_json`, `module.fail_json`,
an uncaught Python exception, or the fuel bound hit while a loop was still
running. -/
inductive MainOutcome
  | exitJson (r : ResultR)
  | failJson (r : ResultR)
  | crashed (e : ModErr)
  | outOfFuel
deriving DecidableEq, Repr

/-- `str.rstrip("\r\n")`. -/
def rstripCRLF (s : String) : String :=
  String.mk (s.data.reverse.dropWhile (fun c => c = '\r' ∨ c = '\n')).reverse

/-- `shlex.split` modelled as whitespace splitting; no claim exercises quoted
arguments, the only place shlex differs from this. -/
def shlex_split (s : String) : List String :=
  ((splitOnChar ' ' s).foldr
      (fun w acc => (splitOnChar '\t' w).foldr (fun v a => v :: a) acc) []).filter
    (fun w => w ≠ "")

/-- Python truthiness of the optional raw string. -/
def strTruthy : Option String → Bool
  | Option.none => false
  | Option.some s => s ≠ ""

/-- Python truthiness of the optional argv list. -/
def listTruthy : Option (List String) → Bool
  | Option.none => false
  | Option.some l => l ≠ []

/-- `(not args or args.strip() == '')`: no usable raw command.  A missing
value and the empty string both strip to the empty string. -/
def noRawCommand (p : Params) : Bool := pyStrip (p.raw_params.getD "") = ""

/-- `not argv`. -/
def noArgv (p : Params) : Bool := !(listTruthy p.argv)

/-- `to_text(end - start)`, the timestamp subtraction rendered opaquely. -/
def timeDelta (s e : String) : String := e ++ " - " ++ s

/-- The message of the `os.chdir` failure branch; the embedded exception text
is abstracted by the offending path. -/
def chdirFailMsg (d : String) : String :=
  "Unable to change directory before execution: " ++ d

/-- The `creates`/`removes` gate of `main` (lines 424-438): `creates` first,
`removes` only while `r['msg']` is still empty; each hit yields the message
and the deprecated stdout text, with `shoulda` chosen by check mode.  An
empty-string pattern is falsy in Python and never checked. -/
def gateMsg (w : World) (check_mode : Bool) (p : Params) : Option (String × String) :=
  let shoulda := if check_mode then "Would" else "Did"
  let createsHit : Option String :=
    match p.creates with
    | Option.some c => if c ≠ "" ∧ w.glob c ≠ [] then Option.some c else Option.none
    | Option.none => Option.none
  match createsHit with
  | Option.some c =>
      Option.some (shoulda ++ " not run command since '" ++ c ++ "' exists",
                   "skipped, since " ++ c ++ " exists")
  | Option.none =>
    match p.removes with
    | Option.some rm =>
        if rm ≠ "" ∧ w.glob rm = [] then
          Option.some (shoulda ++ " not run command since '" ++ rm ++ "' does not exist",
                       "skipped, since " ++ rm ++ " does not exist")
        else Option.none
    | Option.none => Option.none

/-- Everything of `main` after the gate let execution proceed (lines
442-500): default `changed` to true, before-snapshots, execute or simulate,
after-snapshots plus diff, timestamp rendering, stripping, and the final
non-zero-return-code classification. -/
def postGate (w : World) (exec : ExecOutcome) (check_mode : Bool) (p : Params) (fuel : Nat)
    (r0 : ResultR) (eff0 : Effects) : MainOutcome × Effects :=
  let r1 := { r0 with changed := true }
  let watched := p.modifies.getD []
  let beforeRes := if watched ≠ [] then snapList w.fs w.cwd fuel watched else .done []
  let eff1 := { eff0 with beforeSnapshotted := if watched ≠ [] then watched else [] }
  match beforeRes with
  | .fuelOut => (.outOfFuel, eff1)
  | .error e => (.crashed e, eff1)
  | .done path2diffBefore =>
    let step2 : ResultR × Effects × FS :=
      if ¬ check_mode then
        ({ r1 with start := Option.some exec.startT, end_ := Option.some exec.endT,
                   rc := Option.some exec.rc, stdout := exec.stdout, stderr := exec.stderr },
         { eff1 with processSpawned := true }, exec.fsAfter)
      else
        let rck := { r1 with rc := Option.some 0,
                             msg := "Command would have run if not in check mode" }
        (if p.creates = Option.none ∧ p.removes = Option.none
         then { rck with skipped := true, changed := false } else rck,
         eff1, w.fs)
    let r2 := step2.1
    let eff2 := step2.2.1
    let fsNow := step2.2.2
    let afterRes := if watched ≠ [] then snapList fsNow w.cwd fuel watched else .done []
    let eff3 := { eff2 with afterSnapshotted := if watched ≠ [] then watched else [] }
    match afterRes with
    | .fuelOut => (.outOfFuel, eff3)
    | .error e => (.crashed e, eff3)
    | .done path2diffAfter =>
      let r3res : Except ModErr ResultR :=
        if watched ≠ [] then
          let pairs := watched.map (fun pa =>
            (pa, lookupSnap path2diffBefore pa, lookupSnap path2diffAfter pa))
          match diffStep pairs [] false with
          | .error e => .error e
          | .ok dc => .ok { r2 with diff := Option.some dc.1, changed := dc.2 }
        else .ok r2
      match r3res with
      | .error e => (.crashed e, eff3)
      | .ok r3 =>
        let r4 :=
          match r3.start, r3.end_ with
          | Option.some s, Option.some e => { r3 with delta := Option.some (timeDelta s e) }
          | _, _ => r3
        let r5 :=
          if p.strip_empty_ends then
            { r4 with stdout := rstripCRLF r4.stdout, stderr := rstripCRLF r4.stderr }
          else r4
        if r5.rc ≠ Option.some 0 then
          (.failJson { r5 with msg := "non-zero return code" }, eff3)
        else (.exitJson r5, eff3)

/-- The gate and onward (lines 424 to the end), after validation and chdir. -/
def afterChdir (w : World) (exec : ExecOutcome) (check_mode : Bool) (p : Params) (fuel : Nat)
    (r1 : ResultR) (eff1 : Effects) : MainOutcome × Effects :=
  match gateMsg w check_mode p with
  | Option.some ms =>
      (.exitJson { r1 with msg := ms.1, stdout := ms.2, rc := Option.some 0 }, eff1)
  | Option.none => postGate w exec check_mode p fuel r1 eff1

/-- `main` from the source: validation, command normalization, chdir, then
the gate and the execution pipeline.  The `executable` warning branch does
not affect control flow and is omitted; `exec` is the oracle for the single
possible `module.run_command` call. -/
def main (w : World) (exec : ExecOutcome) (check_mode : Bool) (p : Params) (fuel : Nat) :
    MainOutcome × Effects :=
  let args := p.raw_params
  let r : ResultR := {}
  let eff : Effects := {}
  if noRawCommand p && noArgv p then
    (.failJson { r with rc := Option.some 256, msg := "no command given" }, eff)
  else if strTruthy args && listTruthy p.argv then
    (.failJson { r with rc := Option.some 256,
                        msg := "only command or argv can be given, not both" }, eff)
  else
    let cmd : Sum String (List String) :=
      match args with
      | Option.some s =>
        if s ≠ "" then (if ¬ p.uses_shell then Sum.inr (shlex_split s) else Sum.inl s)
        else Sum.inr (p.argv.getD [])
      | Option.none => Sum.inr (p.argv.getD [])
    let r1 := { r with cmd := Option.some cmd }
    match p.chdir with
    | Option.some d =>
      let eff1 := { eff with chdirAttempted := true }
      match FS.lookup w.fs (os_path_abspath w.cwd d) with
      | Option.some ent =>
        if ent.ftype = .directory then
          afterChdir { w with cwd := os_path_abspath w.cwd d } exec check_mode p fuel r1 eff1
        else (.failJson { r1 with msg := chdirFailMsg d }, eff1)
      | Option.none => (.failJson { r1 with msg := chdirFailMsg d }, eff1)
    | Option.none => afterChdir w exec check_mode p fuel r1 eff

/-! ## Fixtures -/

/-- A regular file holding the UTF-8 text `c`. -/
def fReg (c : String) : FSEntry :=
  { owner := "u", group := "g", ftype := .regular, mode := "-rw-r--r--",
    st_size := c.length, content := .text c }

/-- A symlink whose `os.readlink` target is `t`. -/
def symTo (t : String) : FSEntry :=
  { owner := "root", group := "root", ftype := .symlink, mode := "lrwxrwxrwx",
    st_size := t.length, linkTarget := t }

/-- A filesystem whose symlink chain starting at "/a" revisits "/b" without
ever revisiting the starting path: /a → /b → /c → /b. -/
def fsThreeCycle : FS := [("/a", symTo "/b"), ("/b", symTo "/c"), ("/c", symTo "/b")]

def statA : StatDict :=
  { path := "/a", owner := "root", group := "root", file_type := "symlink",
    mode := "lrwxrwxrwx", size := "2 bytes" }

def statB : StatDict := { statA with path := "/b" }

def statC : StatDict := { statA with path := "/c" }

/-- An empty world for witnesses. -/
def trivWorld : World := { fs := [], cwd := "/", glob := fun _ => [] }

/-- An inert executor outcome for witnesses that never reach execution. -/
def trivExec : ExecOutcome :=
  { rc := 0, stdout := "", stderr := "", startT := "t0", endT := "t1", fsAfter := [] }

/-! ## C1 -/

/-- Once the traversal of `fsThreeCycle` has entered the /b → /c → /b cycle,
it never leaves it: `seen_paths` stays `["/a"]` forever, so no iteration ever
detects the repeat, and the loop consumes any amount of fuel. -/
theorem hrsLoop_threeCycle_diverges :
    ∀ (fuel : Nat) (out : List StatDict),
      (out.getLast?.map StatDict.file_type) = Option.some "symlink" →
      hrsLoop fsThreeCycle "/" fuel "/b" out ["/a"] = LoopRes.fuelOut ∧
      hrsLoop fsThreeCycle "/" fuel "/c" out ["/a"] = LoopRes.fuelOut := by
  intro fuel
  induction fuel with
  | zero => exact fun out _ => ⟨rfl, rfl⟩
  | succ n ih =>
    intro out h
    have hb : hrsLoop fsThreeCycle "/" (n + 1) "/b" out ["/a"]
        = hrsLoop fsThreeCycle "/" n "/c" (out ++ [statC]) ["/a"] := by
      have h1 : get_symlink_destination_absolute fsThreeCycle "/" "/b" = Except.ok "/c" := by
        decide
      have h2 : _human_readable_stat fsThreeCycle "/c" = Except.ok statC := by decide
      simp only [hrsLoop]
      rw [if_pos h]
      simp [h1, h2]
    have hc : hrsLoop fsThreeCycle "/" (n + 1) "/c" out ["/a"]
        = hrsLoop fsThreeCycle "/" n "/b" (out ++ [statB]) ["/a"] := by
      have h1 : get_symlink_destination_absolute fsThreeCycle "/" "/c" = Except.ok "/b" := by
        decide
      have h2 : _human_readable_stat fsThreeCycle "/b" = Except.ok statB := by decide
      simp only [hrsLoop]
      rw [if_pos h]
      simp [h1, h2]
    refine ⟨?_, ?_⟩
    · rw [hb]
      exact (ih (out ++ [statC]) (by simp [statC, statA])).2
    · rw [hc]
      exact (ih (out ++ [statB]) (by simp [statB, statA])).1

/-- Claim C1: the spec requires that a symlink chain revisiting ANY already
visited absolute path fail fatally with a cycle error, never looping forever.
The code only ever detects a return to the starting path (`seen_paths` is
never extended inside the loop), so on the chain /a → /b → /c → /b the
snapshot traversal runs forever: for every fuel bound it is still running,
hence it neither raises the cycle error nor returns any chain. -/
theorem C1_cycle_detection_diverges (fuel : Nat) :
    human_readable_stat fsThreeCycle "/" fuel "/a" = LoopRes.fuelOut := by
  have habs : os_path_abspath "/" "/a" = "/a" := by decide
  have h0 : _human_readable_stat fsThreeCycle "/a" = Except.ok statA := by decide
  have hred : human_readable_stat fsThreeCycle "/" fuel "/a"
      = hrsLoop fsThreeCycle "/" fuel "/a" [statA] ["/a"] := by
    simp only [human_readable_stat, habs, h0]
  rw [hred]
  cases fuel with
  | zero => rfl
  | succ n =>
    have ha : hrsLoop fsThreeCycle "/" (n + 1) "/a" [statA] ["/a"]
        = hrsLoop fsThreeCycle "/" n "/b" [statA, statB] ["/a"] := by
      have h1 : get_symlink_destination_absolute fsThreeCycle "/" "/a" = Except.ok "/b" := by
        decide
      have h2 : _human_readable_stat fsThreeCycle "/b" = Except.ok statB := by decide
      simp only [hrsLoop]
      rw [if_pos (show ([statA].getLast?.map StatDict.file_type) = Option.some "symlink" by
        decide)]
      simp [h1, h2]
    rw [ha]
    exact (hrsLoop_threeCycle_diverges n [statA, statB] (by simp [statB, statA])).1

/-! ## C2 -/

/-- The filesystem before the command: /tmp/f holds "a\n". -/
def fsBeforeC2 : FS := [("/tmp/f", fReg "a\n")]

/-- The filesystem after the command appended a line to /tmp/f. -/
def fsAfterC2 : FS := [("/tmp/f", fReg "a\nb\n")]

def worldC2 : World := { fs := fsBeforeC2, cwd := "/", glob := fun _ => [] }

def execC2 : ExecOutcome :=
  { rc := 0, stdout := "", stderr := "", startT := "t0", endT := "t1", fsAfter := fsAfterC2 }

def paramsC2 : Params :=
  { raw_params := Option.some "appendline", modifies := Option.some ["/tmp/f"] }

/-- Claim C2: the spec's scenario — watchedPaths=["/tmp/f"], command appends
a line to /tmp/f — is supposed to produce exactly one DiffRecord with
changed=true.  The code instead crashes: the snapshot of a present path has
no "state" key, yet the comparison loop reads `new_diff["before"]["state"]`
unconditionally on any differing pair, so the invocation dies with an
uncaught KeyError("state") and produces neither a DiffRecord nor a result. -/
theorem C2_diff_scenario_crashes :
    main worldC2 execC2 false paramsC2 9 =
      (MainOutcome.crashed (ModErr.keyError "state"),
       { chdirAttempted := false, processSpawned := true,
         beforeSnapshotted := ["/tmp/f"], afterSnapshotted := ["/tmp/f"] }) := by
  decide

/-! ## C3 -/

/-- After-filesystem for C3: /tmp/g was created as a regular file. -/
def fsAfterC3 : FS := [("/tmp/g", fReg "hi")]

def statG : StatDict :=
  { path := "/tmp/g", owner := "u", group := "g", file_type := "regular file",
    mode := "-rw-r--r--", size := "2 bytes" }

/-- The snapshot `examine_file` produces for the created /tmp/g. -/
def snapAfterC3 : Snapshot := [("stat", .statList [statG]), ("content", .str "hi")]

/-- Claim C3: when before/after states differ (absent → regular file) the
spec says the DiffRecord is collapsed to only {state, path}.  The code never
gets there: the present-side snapshot has no "state" key, so evaluating
`new_diff["after"]["state"]` in the collapse test raises an uncaught
KeyError("state"); no collapsed DiffRecord is produced. -/
theorem C3_collapse_crashes :
    examine_file ([] : FS) "/" 5 "/tmp/g" = LoopRes.done absentSnapshot ∧
    ∃ aft, examine_file fsAfterC3 "/" 5 "/tmp/g" = LoopRes.done aft ∧
      diffStep [("/tmp/g", absentSnapshot, aft)] [] false
        = Except.error (ModErr.keyError "state") :=
  ⟨by decide, snapAfterC3, by decide, by decide⟩

/-! ## C4 -/

/-- A raw command that does not strip to empty is truthy. -/
theorem strTruthy_of_not_noRaw (p : Params) (h : noRawCommand p = false) :
    strTruthy p.raw_params = true := by
  cases hrp : p.raw_params with
  | none =>
    rw [noRawCommand, hrp] at h
    exact absurd h (by decide)
  | some s =>
    rw [noRawCommand, hrp] at h
    simp only [Option.getD] at h
    simp only [strTruthy, decide_eq_true_eq]
    intro hse
    rw [hse] at h
    exact absurd h (by decide)

/-- Claim C4: whenever both command forms are supplied, or neither is (a
missing, empty or whitespace-only raw command counting as absent, and a
missing or empty argv counting as absent), `main` fails validation with
rc 256 before any side effect: no chdir attempt, no process, no snapshots. -/
theorem C4_validation_before_side_effects (w : World) (exec : ExecOutcome) (cm : Bool)
    (p : Params) (fuel : Nat)
    (h : (noRawCommand p = true ∧ noArgv p = true)
       ∨ (noRawCommand p = false ∧ noArgv p = false)) :
    ∃ res, main w exec cm p fuel = (MainOutcome.failJson res, ({} : Effects)) ∧
      res.rc = Option.some 256 ∧ res.changed = false ∧
      (res.msg = "no command given" ∨ res.msg = "only command or argv can be given, not both") := by
  rcases h with ⟨h1, h2⟩ | ⟨h1, h2⟩
  · refine ⟨{ rc := Option.some 256, msg := "no command given" }, ?_, rfl, rfl, Or.inl rfl⟩
    simp [main, h1, h2]
  · have hs : strTruthy p.raw_params = true := strTruthy_of_not_noRaw p h1
    have ha : listTruthy p.argv = true := by
      have := h2
      rw [noArgv] at this
      simpa using this
    refine ⟨{ rc := Option.some 256, msg := "only command or argv can be given, not both" },
      ?_, rfl, rfl, Or.inr rfl⟩
    simp [main, h1, hs, ha]

/-- Witness for C4 at the concrete input with neither command form. -/
theorem C4_witness :
    ((noRawCommand {} = true ∧ noArgv {} = true)
      ∨ (noRawCommand {} = false ∧ noArgv {} = false)) ∧
    ∃ res, main trivWorld trivExec false {} 0 = (MainOutcome.failJson res, ({} : Effects)) ∧
      res.rc = Option.some 256 ∧ res.changed = false ∧
      (res.msg = "no command given" ∨ res.msg = "only command or argv can be given, not both") :=
  ⟨Or.inl ⟨by decide, by decide⟩,
   C4_validation_before_side_effects trivWorld trivExec false {} 0 (Or.inl ⟨by decide, by decide⟩)⟩

/-! ## C5 -/

/-- A non-empty raw command exists when `noRawCommand` is false. -/
theorem exists_raw_of_not_noRaw (p : Params) (h : noRawCommand p = false) :
    ∃ s, p.raw_params = Option.some s ∧ s ≠ "" := by
  have hs := strTruthy_of_not_noRaw p h
  cases hrp : p.raw_params with
  | none => rw [hrp] at hs; exact absurd hs (by decide)
  | some s =>
    rw [hrp] at hs
    exact ⟨s, rfl, by simpa [strTruthy] using hs⟩

/-- Claim C5: when both guard conditions would trigger — `creates` has a
match and `removes` has none — the `creates` skip reason is the one
reported; `creates` is evaluated first, and the single `msg` field carries
exactly one skip reason. -/
theorem C5_creates_priority (w : World) (exec : ExecOutcome) (cm : Bool) (p : Params)
    (fuel : Nat)
    (h1 : noRawCommand p = false) (hargv : p.argv = Option.none)
    (hch : p.chdir = Option.none)
    (c : String) (hc : p.creates = Option.some c) (hcne : c ≠ "") (hcg : w.glob c ≠ [])
    (rm : String) (_hrm : p.removes = Option.some rm) (_hrmne : rm ≠ "")
    (_hrg : w.glob rm = []) :
    ∃ res eff, main w exec cm p fuel = (MainOutcome.exitJson res, eff) ∧
      res.msg = (if cm then "Would" else "Did") ++ " not run command since '" ++ c ++ "' exists" ∧
      res.rc = Option.some 0 ∧ res.changed = false ∧ res.skipped = false := by
  have hs := strTruthy_of_not_noRaw p h1
  obtain ⟨s, hps, hsne⟩ := exists_raw_of_not_noRaw p h1
  have hgate : gateMsg w cm p = Option.some
      ((if cm then "Would" else "Did") ++ " not run command since '" ++ c ++ "' exists",
       "skipped, since " ++ c ++ " exists") := by
    simp [gateMsg, hc, hcne, hcg]
  refine ⟨{ cmd := Option.some (if ¬ p.uses_shell then Sum.inr (shlex_split s) else Sum.inl s),
            msg := (if cm then "Would" else "Did") ++ " not run command since '" ++ c ++ "' exists",
            stdout := "skipped, since " ++ c ++ " exists",
            rc := Option.some 0 }, {}, ?_, rfl, rfl, rfl, rfl⟩
  simp [main, h1, hs, hargv, hch, hps, hsne, listTruthy, afterChdir, hgate]

def worldC5 : World :=
  { fs := [], cwd := "/", glob := fun q => if q = "/done" then ["/done"] else [] }

def paramsC5 : Params :=
  { raw_params := Option.some "make thing", creates := Option.some "/done",
    removes := Option.some "/gone" }

/-- Witness for C5: both guards would trigger; the creates reason wins. -/
theorem C5_witness :
    (noRawCommand paramsC5 = false ∧ worldC5.glob "/done" ≠ [] ∧ worldC5.glob "/gone" = []) ∧
    ∃ res eff, main worldC5 trivExec false paramsC5 0 = (MainOutcome.exitJson res, eff) ∧
      res.msg = (if false then "Would" else "Did")
        ++ " not run command since '" ++ "/done" ++ "' exists" ∧
      res.rc = Option.some 0 ∧ res.changed = false ∧ res.skipped = false :=
  ⟨⟨by decide, by decide, by decide⟩,
   C5_creates_priority worldC5 trivExec false paramsC5 0 (by decide) rfl rfl
     "/done" rfl (by decide) (by decide) "/gone" rfl (by decide) (by decide)⟩

/-! ## C6 -/

/-- Claim C6: when the `creates` pattern matches, the result is an exit with
changed=false and rc=0, the command is never executed, and no before or
after snapshots of watched paths are taken (nor is a chdir performed when
none was requested). -/
theorem C6_creates_skip_no_snapshots (w : World) (exec : ExecOutcome) (cm : Bool) (p : Params)
    (fuel : Nat)
    (h1 : noRawCommand p = false) (hargv : p.argv = Option.none)
    (hch : p.chdir = Option.none)
    (c : String) (hc : p.creates = Option.some c) (hcne : c ≠ "") (hcg : w.glob c ≠ []) :
    ∃ res eff, main w exec cm p fuel = (MainOutcome.exitJson res, eff) ∧
      res.changed = false ∧ res.rc = Option.some 0 ∧
      eff.processSpawned = false ∧ eff.beforeSnapshotted = [] ∧
      eff.afterSnapshotted = [] ∧ eff.chdirAttempted = false := by
  have hs := strTruthy_of_not_noRaw p h1
  obtain ⟨s, hps, hsne⟩ := exists_raw_of_not_noRaw p h1
  have hgate : gateMsg w cm p = Option.some
      ((if cm then "Would" else "Did") ++ " not run command since '" ++ c ++ "' exists",
       "skipped, since " ++ c ++ " exists") := by
    simp [gateMsg, hc, hcne, hcg]
  refine ⟨{ cmd := Option.some (if ¬ p.uses_shell then Sum.inr (shlex_split s) else Sum.inl s),
            msg := (if cm then "Would" else "Did") ++ " not run command since '" ++ c ++ "' exists",
            stdout := "skipped, since " ++ c ++ " exists",
            rc := Option.some 0 }, {}, ?_, rfl, rfl, rfl, rfl, rfl, rfl⟩
  simp [main, h1, hs, hargv, hch, hps, hsne, listTruthy, afterChdir, hgate]

def worldC6 : World :=
  { fs := [("/w", fReg "x")], cwd := "/",
    glob := fun q => if q = "/made" then ["/made"] else [] }

def paramsC6 : Params :=
  { raw_params := Option.some "build", creates := Option.some "/made",
    modifies := Option.some ["/w"] }

/-- Witness for C6: creates matches while a watched path is configured; the
skip happens with no snapshot of it and no process. -/
theorem C6_witness :
    (noRawCommand paramsC6 = false ∧ worldC6.glob "/made" ≠ []
      ∧ paramsC6.modifies = Option.some ["/w"]) ∧
    ∃ res eff, main worldC6 trivExec false paramsC6 0 = (MainOutcome.exitJson res, eff) ∧
      res.changed = false ∧ res.rc = Option.some 0 ∧
      eff.processSpawned = false ∧ eff.beforeSnapshotted = [] ∧
      eff.afterSnapshotted = [] ∧ eff.chdirAttempted = false :=
  ⟨⟨by decide, by decide, rfl⟩,
   C6_creates_skip_no_snapshots worldC6 trivExec false paramsC6 0 (by decide) rfl rfl
     "/made" rfl (by decide) (by decide)⟩

/-! ## C7 -/

def worldC7 : World :=
  { fs := [("/tmp/f", fReg "x"), ("/r", fReg "y")], cwd := "/",
    glob := fun q => if q = "/r" then ["/r"] else [] }

def paramsC7 : Params :=
  { raw_params := Option.some "cmd", removes := Option.some "/r",
    modifies := Option.some ["/tmp/f"] }

/-- The result of the C7 counterexample run. -/
def resC7 : ResultR :=
  { changed := false, rc := Option.some 0, cmd := Option.some (Sum.inr ["cmd"]),
    msg := "Command would have run if not in check mode", skipped := false,
    diff := Option.some [] }

def effC7 : Effects := { beforeSnapshotted := ["/tmp/f"], afterSnapshotted := ["/tmp/f"] }

/-- Counterexample to claim C7 as stated: a check-mode invocation that passes
the gate with a `removes` guard configured and a watched path supplied ends
with changed=false, not true — the diff step recomputes `changed` from the
(empty, since nothing ran) set of DiffRecords, overriding "changed stays
true". -/
theorem C7_counterexample :
    gateMsg worldC7 true paramsC7 = Option.none ∧
    paramsC7.removes ≠ Option.none ∧
    main worldC7 trivExec true paramsC7 9 = (MainOutcome.exitJson resC7, effC7) ∧
    resC7.changed = false ∧ resC7.rc = Option.some 0 ∧ effC7.processSpawned = false := by
  decide

/-- Claim C7, amended: in a check-mode invocation that passes the gate the
program is never launched and rc is synthesized as 0; with neither guard
configured the result also has skipped=true and changed=false; otherwise
changed stays true PROVIDED no watched paths were supplied — with watched
paths the diff step recomputes changed from the DiffRecords found (and check
mode runs no command, so an unchanged filesystem yields changed=false, as the
counterexample shows). -/
theorem C7_check_mode_amended (w : World) (exec : ExecOutcome) (p : Params) (fuel : Nat)
    (h1 : noRawCommand p = false) (hargv : p.argv = Option.none)
    (hch : p.chdir = Option.none)
    (hgate : gateMsg w true p = Option.none) (hmod : p.modifies.getD [] = []) :
    ∃ res eff, main w exec true p fuel = (MainOutcome.exitJson res, eff) ∧
      eff.processSpawned = false ∧ res.rc = Option.some 0 ∧
      res.msg = "Command would have run if not in check mode" ∧
      ((p.creates = Option.none ∧ p.removes = Option.none) →
        res.skipped = true ∧ res.changed = false) ∧
      (¬(p.creates = Option.none ∧ p.removes = Option.none) →
        res.skipped = false ∧ res.changed = true) := by
  have hs := strTruthy_of_not_noRaw p h1
  obtain ⟨s, hps, hsne⟩ := exists_raw_of_not_noRaw p h1
  have hrs : rstripCRLF "" = "" := by decide
  by_cases hg : p.creates = Option.none ∧ p.removes = Option.none
  · refine ⟨{ cmd := Option.some (if ¬ p.uses_shell then Sum.inr (shlex_split s) else Sum.inl s),
              changed := false, skipped := true, rc := Option.some 0,
              msg := "Command would have run if not in check mode" }, {}, ?_, rfl, rfl, rfl,
            fun _ => ⟨rfl, rfl⟩, fun hn => absurd hg hn⟩
    simp [main, h1, hs, hargv, hch, hps, hsne, listTruthy, afterChdir, hgate, postGate,
      hmod, hg.1, hg.2, hrs]
  · refine ⟨{ cmd := Option.some (if ¬ p.uses_shell then Sum.inr (shlex_split s) else Sum.inl s),
              changed := true, skipped := false, rc := Option.some 0,
              msg := "Command would have run if not in check mode" }, {}, ?_, rfl, rfl, rfl,
            fun hcon => absurd hcon hg, fun _ => ⟨rfl, rfl⟩⟩
    simp [main, h1, hs, hargv, hch, hps, hsne, listTruthy, afterChdir, hgate, postGate,
      hmod, hg, hrs]

def paramsC7w : Params := { raw_params := Option.some "x" }

/-- Witness for the amended C7 at a concrete no-guard input. -/
theorem C7_witness :
    (noRawCommand paramsC7w = false ∧ gateMsg trivWorld true paramsC7w = Option.none
      ∧ paramsC7w.modifies.getD [] = []) ∧
    ∃ res eff, main trivWorld trivExec true paramsC7w 0 = (MainOutcome.exitJson res, eff) ∧
      eff.processSpawned = false ∧ res.rc = Option.some 0 ∧
      res.msg = "Command would have run if not in check mode" ∧
      ((paramsC7w.creates = Option.none ∧ paramsC7w.removes = Option.none) →
        res.skipped = true ∧ res.changed = false) ∧
      (¬(paramsC7w.creates = Option.none ∧ paramsC7w.removes = Option.none) →
        res.skipped = false ∧ res.changed = true) :=
  ⟨⟨by decide, by decide, rfl⟩,
   C7_check_mode_amended trivWorld trivExec paramsC7w 0 (by decide) rfl rfl (by decide) rfl⟩

/-! ## C8 -/

/-- An existing path that is a symlink to a missing target. -/
def fsDangle : FS := [("/a", symTo "/missing")]

/-- Counterexample to claim C8 as stated: "/a" exists (it is a dangling
symlink), yet its snapshot is the absent sentinel — carrying a "state" key
and no "content" key — because the FileNotFoundError raised while stating
the missing target is caught and collapses the whole snapshot. -/
theorem C8_counterexample :
    FS.lookup fsDangle "/a" ≠ Option.none ∧
    examine_file fsDangle "/" 5 "/a" = LoopRes.done absentSnapshot ∧
    dictGet absentSnapshot "state" = Option.some (SnapVal.str "absent") ∧
    dictGet absentSnapshot "content" = Option.none ∧
    absentSnapshot.map Prod.fst ≠ ["stat", "content"] := by
  decide

/-- Claim C8, amended: every snapshot that `examine_file` RETURNS (rather
than raising) has one of exactly two shapes — the success dict with keys
exactly ["stat", "content"] and no "state" key, or the absent sentinel
{state: absent, stat: None, contents: None} whose content key is spelled
"contents"; the absent shape is produced for missing paths and for any
FileNotFoundError mid-chain (e.g. dangling symlinks), not only for paths
that do not exist. -/
theorem C8_snapshot_shapes_amended (fs : FS) (cwd : String) (fuel : Nat) (path : String)
    (snap : Snapshot) (h : examine_file fs cwd fuel path = LoopRes.done snap) :
    (snap.map Prod.fst = ["stat", "content"] ∧ dictGet snap "state" = Option.none ∧
     dictGet snap "contents" = Option.none) ∨
    (snap = absentSnapshot ∧ snap.map Prod.fst = ["state", "stat", "contents"] ∧
     dictGet snap "content" = Option.none) := by
  simp only [examine_file] at h
  split at h
  · simp at h
  · injection h with h2
    subst h2
    exact Or.inr ⟨rfl, by decide, by decide⟩
  · simp at h
  · split at h
    · split at h
      · injection h with h2
        subst h2
        exact Or.inr ⟨rfl, by decide, by decide⟩
      · simp at h
      · injection h with h2
        subst h2
        exact Or.inl ⟨rfl, rfl, rfl⟩
    · split at h
      · split at h
        · injection h with h2
          subst h2
          exact Or.inl ⟨rfl, rfl, rfl⟩
        · injection h with h2
          subst h2
          exact Or.inr ⟨rfl, by decide, by decide⟩
      · injection h with h2
        subst h2
        exact Or.inl ⟨rfl, rfl, rfl⟩

def fsC8w : FS := [("/f", fReg "x")]

def statC8w : StatDict :=
  { path := "/f", owner := "u", group := "g", file_type := "regular file",
    mode := "-rw-r--r--", size := "1 bytes" }

def snapC8w : Snapshot := [("stat", .statList [statC8w]), ("content", .str "x")]

/-- Witness for the amended C8 at a concrete present regular file. -/
theorem C8_witness :
    examine_file fsC8w "/" 3 "/f" = LoopRes.done snapC8w ∧
    ((snapC8w.map Prod.fst = ["stat", "content"] ∧ dictGet snapC8w "state" = Option.none ∧
      dictGet snapC8w "contents" = Option.none) ∨
     (snapC8w = absentSnapshot ∧ snapC8w.map Prod.fst = ["state", "stat", "contents"] ∧
      dictGet snapC8w "content" = Option.none)) :=
  ⟨by decide, C8_snapshot_shapes_amended fsC8w "/" 3 "/f" snapC8w (by decide)⟩

/-! ## C9 -/

/-- A regular file of 100 bytes. -/
def fReg100 : FSEntry :=
  { owner := "u", group := "g", ftype := .regular, mode := "-rw-r--r--",
    st_size := 100, content := .text "" }

def fsC9 : FS := [("/f", fReg100)]

def statC9 : StatDict :=
  { path := "/f", owner := "u", group := "g", file_type := "regular file",
    mode := "-rw-r--r--", size := "100 bytes" }

/-- Counterexample to claim C9 as stated: for st_size = 100 the snapshot
engine's humanSize is the raw byte count "100 bytes", with no binary unit. -/
theorem C9_counterexample :
    (∃ d, _human_readable_stat fsC9 "/f" = Except.ok d ∧ d.size = "100 bytes") ∧
    human_readable_size 100 = toString 100 ++ " bytes" ∧
    sizeUnits.all (fun u => !(strEndsWith "100 bytes" u)) = true :=
  ⟨⟨statC9, by decide, by decide⟩, by decide, by decide⟩

/-- Every run of the unit loop ends in one of the binary units of its list
(or the final "PiB" fallback). -/
theorem sizeLoop_unit_suffix (c : ℚ) (l : List String) (hl : l ≠ [])
    (hsub : ∀ s ∈ l, s ∈ sizeUnits) :
    ∃ u ∈ sizeUnits, ∃ pre, sizeLoop c l = pre ++ (" " ++ u) := by
  induction l generalizing c with
  | nil => exact absurd rfl hl
  | cons s rest ih =>
    by_cases hlt : c / 1024 < 1024
    · refine ⟨s, hsub s (by simp), fmt2 (c / 1024), ?_⟩
      simp only [sizeLoop]
      rw [if_pos hlt, String.append_assoc]
    · cases rest with
      | nil =>
        refine ⟨"PiB", by decide, fmt2 (c / 1024), ?_⟩
        simp only [sizeLoop]
        rw [if_neg hlt]
        congr 1
      | cons t ts =>
        obtain ⟨u, hu, pre, hpre⟩ :=
          ih (c / 1024) (by simp) (fun x hx => hsub x (List.mem_cons_of_mem s hx))
        refine ⟨u, hu, pre, ?_⟩
        simp only [sizeLoop]
        rw [if_neg hlt]
        exact hpre

/-- Claim C9, amended: `humanSize` renders sizes of at least 1024 bytes with
a binary-multiple unit (KiB ... PiB); sizes below 1024 bytes are rendered as
the raw byte count followed by " bytes", as the counterexample shows. -/
theorem C9_binary_units_amended (n : Nat) (h : 1024 ≤ n) :
    ∃ u ∈ sizeUnits, ∃ pre, human_readable_size n = pre ++ (" " ++ u) := by
  unfold human_readable_size
  rw [if_neg (by omega)]
  exact sizeLoop_unit_suffix (n : ℚ) sizeUnits (by decide) (fun s hs => hs)

/-- Witness for the amended C9 at st_size = 2048. -/
theorem C9_witness :
    1024 ≤ 2048 ∧ ∃ u ∈ sizeUnits, ∃ pre, human_readable_size 2048 = pre ++ (" " ++ u) :=
  ⟨by norm_num, C9_binary_units_amended 2048 (by norm_num)⟩

/-! ## C10 -/

/-- The comparison loop leaves the accumulator and the changed flag alone
when every before/after pair is equal. -/
theorem diffStep_of_all_eq (pairs : List (String × Snapshot × Snapshot))
    (acc : List DiffRecord) (chg : Bool)
    (h : ∀ x ∈ pairs, x.2.1 = x.2.2) : diffStep pairs acc chg = Except.ok (acc, chg) := by
  induction pairs with
  | nil => rfl
  | cons hd tl ih =>
    obtain ⟨pa, bf, af⟩ := hd
    have hba : bf = af := h (pa, bf, af) (List.mem_cons_self _ _)
    simp only [diffStep]
    rw [if_pos hba]
    exact ih (fun x hx => h x (List.mem_cons_of_mem _ hx))

/-- Claim C10: diffing the snapshots of any path list against a re-snapshot
taken from the same (unmutated) filesystem — including absent paths — yields
no DiffRecord and leaves changed=false. -/
theorem C10_identical_resnapshot_no_diff (fs : FS) (cwd : String) (fuel : Nat)
    (paths : List String) (snapsB snapsA : List (String × Snapshot))
    (hB : snapList fs cwd fuel paths = LoopRes.done snapsB)
    (hA : snapList fs cwd fuel paths = LoopRes.done snapsA) :
    diffStep (paths.map (fun pa => (pa, lookupSnap snapsB pa, lookupSnap snapsA pa))) [] false
      = Except.ok ([], false) := by
  rw [hB] at hA
  injection hA with hBA
  subst hBA
  refine diffStep_of_all_eq _ [] false ?_
  intro x hx
  simp only [List.mem_map] at hx
  obtain ⟨pa, _, rfl⟩ := hx
  rfl

def fsC10 : FS := [("/f", fReg "hello")]

def statC10 : StatDict :=
  { path := "/f", owner := "u", group := "g", file_type := "regular file",
    mode := "-rw-r--r--", size := "5 bytes" }

/-- The before/after snapshots of an absent path and a present path on the
unmutated `fsC10`. -/
def snapsC10 : List (String × Snapshot) :=
  [("/absent", absentSnapshot),
   ("/f", [("stat", .statList [statC10]), ("content", .str "hello")])]

/-- Witness for C10 covering both the absent case and a present file. -/
theorem C10_witness :
    snapList fsC10 "/" 4 ["/absent", "/f"] = LoopRes.done snapsC10 ∧
    diffStep ((["/absent", "/f"]).map
        (fun pa => (pa, lookupSnap snapsC10 pa, lookupSnap snapsC10 pa))) [] false
      = Except.ok ([], false) :=
  ⟨by decide,
   C10_identical_resnapshot_no_diff fsC10 "/" 4 ["/absent", "/f"] snapsC10 snapsC10
     (by decide) (by decide)⟩

end CommandShellDiff
